import Mathlib

/-!
Verification of the Tubely upload-and-publish pipeline.

Shallow embedding of the repository's HTTP upload handlers:
- `handlerUploadThumbnailDisk`   — the disk-backed thumbnail handler
  (handler_upload_thumbnail.go).
- `handlerUploadThumbnailData`   — the data-URL thumbnail handler (part_000).
- `handlerUploadVideoSimple`     — the plain video handler (part_001).
- `handlerUploadVideoDirect`     — the direct-URL video handler with
  orientation prefixes (part_002, first file).
- `handlerUploadVideoPresigned`  — the presigned-URL video handler with
  fast-start remux (part_002, second file).

External collaborators (JWT validation, the metadata store, the object store,
ffprobe/ffmpeg, the presigner, base64) are modelled as explicit oracle inputs;
Go standard-library string functions (strings.Split, strconv.Atoi,
fmt.Sprintf %d, mime.ParseMediaType, filepath.Ext) are modelled by executable
Lean functions below.  Machine integers that the code reads from ffprobe JSON
are modelled as `Int` (Go `int`); no arithmetic in the pipeline can overflow.
-/

namespace Tubely

/-! ## Go standard-library string models -/

/-- Model of `strings.Split(s, sep)` for a one-character separator:
accumulate characters until the separator, emit the chunk, continue. -/
def splitOnCharAux (sep : Char) : List Char → List Char → List (List Char)
  | [], acc => [acc.reverse]
  | c :: cs, acc =>
    if c = sep then acc.reverse :: splitOnCharAux sep cs []
    else splitOnCharAux sep cs (c :: acc)

/-- Model of `strings.Split(s, sep)` for a one-character separator `sep`. -/
def splitOnChar (sep : Char) (s : String) : List String :=
  (splitOnCharAux sep s.data []).map String.mk

/-- Decimal digit character, `digitChar d = Char.ofNat (48 + d)`. -/
def digitChar (d : Nat) : Char := Char.ofNat (48 + d)

/-- Fuelled digit printer (the fuel makes the recursion structural, so the
kernel can evaluate it): emit the digits of `n` in front of `acc`. -/
def natToCharsAux : Nat → Nat → List Char → List Char
  | 0, _, acc => acc
  | fuel + 1, n, acc =>
    if n < 10 then digitChar n :: acc
    else natToCharsAux fuel (n / 10) (digitChar (n % 10) :: acc)

/-- Decimal digit characters of `n`, most significant first
(model of the output of `fmt.Sprintf("%d", n)` for a natural number). -/
def natToChars (n : Nat) : List Char := natToCharsAux (n + 1) n []

/-- Recursive reference form of `natToChars`, used only in proofs. -/
def natToCharsSpec (n : Nat) : List Char :=
  if _h : n < 10 then [digitChar n]
  else natToCharsSpec (n / 10) ++ [digitChar (n % 10)]

/-- Model of `fmt.Sprintf("%d", n)` for a natural number. -/
def natToString (n : Nat) : String := String.mk (natToChars n)

/-- Model of `fmt.Sprintf("%d", i)` for a Go `int`. -/
def intToString (i : Int) : String :=
  if i < 0 then String.mk ('-' :: natToChars i.natAbs) else natToString i.toNat

/-- Value of a digit string read left to right. -/
def parseDigitsVal (cs : List Char) : Nat :=
  cs.foldl (fun a c => a * 10 + (c.toNat - 48)) 0

/-- A nonempty all-digit character list. -/
def allDigits (cs : List Char) : Bool := !cs.isEmpty && cs.all Char.isDigit

/-- Digit-string parser used by the `strconv.Atoi` model. -/
def atoiNat? (cs : List Char) : Option Nat :=
  if allDigits cs then some (parseDigitsVal cs) else none

/-- Model of `strconv.Atoi` with the error ignored, as the handlers do
(`w, _ := strconv.Atoi(parts[0])`): on any parse error the result is 0.
Overflow of 64-bit `int` is not modelled (ffprobe dimensions are small). -/
def atoi (s : String) : Int :=
  match s.data with
  | [] => 0
  | c :: rest =>
    if c = '-' then
      match atoiNat? rest with
      | some n => -(n : Int)
      | none => 0
    else if c = '+' then
      match atoiNat? rest with
      | some n => (n : Int)
      | none => 0
    else
      match atoiNat? (c :: rest) with
      | some n => (n : Int)
      | none => 0

/-- Model of `filepath.Ext`: scan the path from the end; stop at a path
separator; at the first dot return the suffix from that dot; otherwise
return the empty string.  The first argument is the reversed character
list still to scan, the second the (in-order) characters seen after it. -/
def filepathExtAux : List Char → List Char → String
  | [], _ => ""
  | c :: rest, acc =>
    if c = '/' then ""
    else if c = '.' then String.mk ('.' :: acc)
    else filepathExtAux rest (c :: acc)

/-- Model of Go `filepath.Ext(p)` (Unix separators). -/
def filepathExt (p : String) : String := filepathExtAux p.data.reverse []

/-- HTTP token characters accepted by Go `mime`
(alphanumerics plus a fixed set of symbols; the apostrophe and backtick,
written here by code point, are also token characters in Go). -/
def isTokenChar (c : Char) : Bool :=
  c.isAlphanum || c = '!' || c = '#' || c = '$' || c = '%' || c = '&' ||
    c = '*' || c = '+' || c = '-' || c = '.' || c = '^' || c = '_' ||
    c = '|' || c = '~' || c = Char.ofNat 39 || c = Char.ofNat 96

/-- A nonempty string of HTTP token characters. -/
def isToken (s : String) : Bool := !s.isEmpty && s.data.all isTokenChar

/-- The base media type must be `token` or `token/token`
(Go `mime.checkMediaTypeDisposition`). -/
def checkMediaType (base : String) : Bool :=
  match splitOnChar '/' base with
  | [t] => isToken t
  | [t, sub] => isToken t && isToken sub
  | _ => false

/-- ASCII whitespace, the fragment of `strings.TrimSpace` the model needs. -/
def isSpaceChar (c : Char) : Bool := c = ' ' || c = '\t' || c = '\n' || c = '\r'

/-- Model of `strings.TrimSpace` (ASCII whitespace). -/
def trimSpace (s : String) : String :=
  String.mk (((s.data.dropWhile isSpaceChar).reverse.dropWhile isSpaceChar).reverse)

/-- ASCII lowercasing of one character. -/
def lowerChar (c : Char) : Char :=
  if 'A' ≤ c ∧ c ≤ 'Z' then Char.ofNat (c.toNat + 32) else c

/-- Model of `strings.ToLower` (ASCII). -/
def toLowerAscii (s : String) : String := String.mk (s.data.map lowerChar)

/-- Model of `mime.ParseMediaType`, restricted to the base media type as the
handlers use it: take the part before the first `;`, trim surrounding space,
lowercase it, and require a well-formed `token/token`; `none` models a
non-nil error.  Parameter syntax after the `;` is not modelled (the handlers
discard parameters). -/
def parseMediaType (v : String) : Option String :=
  let base := toLowerAscii (trimSpace ((splitOnChar ';' v).headD v))
  if checkMediaType base then some base else none

/-! ## Data model -/

/-- Modelled from the spec: the VideoRecord of the metadata store
(`internal/database.Video` is not under src/) — opaque identifier, owning
principal ID, nullable thumbnail URL, nullable video URL; the unspecified
descriptive fields play no role in the handlers and are omitted. -/
structure Video where
  id : String
  userID : String
  thumbnailURL : Option String
  videoURL : Option String
deriving DecidableEq

/-- One uploaded multipart file: its declared Content-Type header,
its original filename, and its bytes (modelled as a string). -/
structure FilePart where
  contentType : String
  filename : String
  bytes : String
deriving DecidableEq

/-- One upload request as the handlers observe it.  External parsing steps
are oracles: `videoID` is the result of `uuid.Parse` (`none` = error),
`bearerToken` of `auth.GetBearerToken`, `jwtValid`/`userID` of
`auth.ValidateJWT`, `parseFormOk` of `r.ParseMultipartForm`, and `formFile`
of `r.FormFile` (`none` = error). -/
structure UploadRequest where
  videoID : Option String
  bearerToken : Option String
  jwtValid : Bool
  userID : String
  parseFormOk : Bool
  formFile : Option FilePart

/-- Server configuration (`apiConfig` fields the handlers read). -/
structure ApiCfg where
  assetsRoot : String
  assetsBaseURL : String
  s3Bucket : String
  s3Region : String

/-- Oracles for the thumbnail handlers: the metadata store
(`GetVideo`, `UpdateVideo`), the filesystem (`os.Create`, `io.Copy`),
`io.ReadAll`, and the base64 encoder. -/
structure ThumbEnv where
  getVideo : String → Option Video
  updateOk : Bool
  createOk : Bool
  copyOk : Bool
  readAllOk : Bool
  base64 : String → String

/-- Observable outcome of a thumbnail handler: first HTTP status written,
success body, whether execution panicked after responding, the asset files
present on disk when the handler is done (path, contents), and the
successfully persisted record updates. -/
structure ThumbOutcome where
  status : Nat
  okBody : Option Video
  panicked : Bool
  filesWritten : List (String × String)
  dbUpdates : List Video
deriving DecidableEq

/-- Error outcome of a thumbnail handler with the given status, leaving the
given files on disk. -/
def errThumb (status : Nat) (files : List (String × String)) : ThumbOutcome :=
  { status := status, okBody := none, panicked := false,
    filesWritten := files, dbUpdates := [] }

/-- Modelled from the spec: `getAssetPath` (not under src/) derives the asset
path deterministically from the video ID and the content type. -/
def getAssetPath (videoID mediaType : String) : String :=
  videoID ++ "." ++ mediaType

/-- Modelled from the spec: `getAssetDiskPath` (not under src/) places the
asset path under the assets root directory. -/
def getAssetDiskPath (cfg : ApiCfg) (assetPath : String) : String :=
  cfg.assetsRoot ++ "/" ++ assetPath

/-- Modelled from the spec: `getAssetURL` (not under src/) computes the
externally reachable URL of a stored asset. -/
def getAssetURL (cfg : ApiCfg) (assetPath : String) : String :=
  cfg.assetsBaseURL ++ "/" ++ assetPath

/-! ## Thumbnail handlers -/

/-- Embedding of `handlerUploadThumbnail` from handler_upload_thumbnail.go
(the disk-backed variant).  The `r.FormFile` error branch of the source
calls `respondWithError` without `return`; execution then continues and
dereferences the nil multipart file header, which panics after the 400
response was written — modelled by `panicked := true`. -/
def handlerUploadThumbnailDisk (cfg : ApiCfg) (env : ThumbEnv)
    (r : UploadRequest) : ThumbOutcome :=
  match r.videoID with
  | none => errThumb 400 []
  | some videoID =>
    match r.bearerToken with
    | none => errThumb 401 []
    | some _token =>
      if !r.jwtValid then errThumb 401 []
      else if !r.parseFormOk then errThumb 400 []
      else
        match r.formFile with
        | none => { errThumb 400 [] with panicked := true }
        | some part =>
          let mediaType := part.contentType
          if mediaType = "" then errThumb 400 []
          else
            match parseMediaType mediaType with
            | none => errThumb 400 []
            | some mediaTypeCheck =>
              if mediaTypeCheck ≠ "image/jpeg" ∧ mediaTypeCheck ≠ "image/png" then
                errThumb 400 []
              else
                let assetPath := getAssetPath videoID mediaType
                let thumbnailDiskPath := getAssetDiskPath cfg assetPath
                if !env.createOk then errThumb 500 []
                else if !env.copyOk then errThumb 500 [(thumbnailDiskPath, "")]
                else
                  let files := [(thumbnailDiskPath, part.bytes)]
                  match env.getVideo videoID with
                  | none => errThumb 500 files
                  | some video =>
                    if video.userID ≠ r.userID then errThumb 401 files
                    else
                      let dataURL := getAssetURL cfg assetPath
                      let video' := { video with thumbnailURL := some dataURL }
                      if !env.updateOk then errThumb 500 files
                      else
                        { status := 200, okBody := some video',
                          panicked := false, filesWritten := files,
                          dbUpdates := [video'] }

/-- Embedding of `handlerUploadThumbnail` from part_000 (the data-URL
variant).  It performs no MIME parsing and no jpeg/png allow-list check:
any non-empty Content-Type is accepted and embedded into a
`data:<mime>;base64,<data>` URL.  Its `r.FormFile` error branch has the
same missing `return` as the disk variant. -/
def handlerUploadThumbnailData (env : ThumbEnv) (r : UploadRequest) :
    ThumbOutcome :=
  match r.videoID with
  | none => errThumb 400 []
  | some videoID =>
    match r.bearerToken with
    | none => errThumb 401 []
    | some _token =>
      if !r.jwtValid then errThumb 401 []
      else if !r.parseFormOk then errThumb 400 []
      else
        match r.formFile with
        | none => { errThumb 400 [] with panicked := true }
        | some part =>
          let mediaType := part.contentType
          if mediaType = "" then errThumb 400 []
          else if !env.readAllOk then errThumb 500 []
          else
            match env.getVideo videoID with
            | none => errThumb 500 []
            | some video =>
              if video.userID ≠ r.userID then errThumb 401 []
              else
                let dataURL :=
                  "data:" ++ mediaType ++ ";base64," ++ env.base64 part.bytes
                let video' := { video with thumbnailURL := some dataURL }
                if !env.updateOk then errThumb 500 []
                else
                  { status := 200, okBody := some video',
                    panicked := false, filesWritten := [],
                    dbUpdates := [video'] }

/-! ## Video-side model: external media tools, presigner -/

/-- Behaviour of the external `ffprobe` invocation on the staged temp file:
it can fail to run, emit unparseable JSON, or report a stream list with
integer width/height pairs. -/
inductive FfprobeResult where
  | runError
  | badJson
  | streams (l : List (Int × Int))

/-- Behaviour of the external `ffmpeg` invocation: whether it exits
successfully, and whether it leaves the output file behind when it fails
(on success the output file always exists). -/
structure Ffmpeg where
  exitOk : Bool
  wroteOutput : Bool

/-- Embedding of `getVideoAspectRatio` (part_002): run ffprobe, parse its
JSON, take the first stream's width/height, reject a zero dimension, and
format the ratio as `width:height` with `fmt.Sprintf("%d:%d", ...)`.
`filepath.Abs` is modelled as the identity (temp-file paths are absolute). -/
def getVideoAspectRatio (probe : FfprobeResult) : Except String String :=
  match probe with
  | .runError => Except.error "failed to execute ffprobe"
  | .badJson => Except.error "failed to parse ffprobe output"
  | .streams [] => Except.error "no streams found in video"
  | .streams ((w, h) :: _) =>
    if w = 0 ∨ h = 0 then
      Except.error "width or height is zero, cannot determine aspect ratio"
    else Except.ok (intToString w ++ ":" ++ intToString h)

/-- Embedding of `processVideoForFastStart` (part_002): derive the sibling
output path `filePath + ".processing"` and run ffmpeg on it.  The second
component lists the files the call leaves on disk: the output file on
success, and also on failure when the failing tool had already written it
(the source never removes the output on its error path).  `filepath.Abs`
is modelled as the identity. -/
def processVideoForFastStart (tool : Ffmpeg) (filePath : String) :
    Except String String × List String :=
  let processedPath := filePath ++ ".processing"
  if tool.exitOk then (Except.ok processedPath, [processedPath])
  else
    (Except.error "failed to execute ffmpeg",
      if tool.wroteOutput then [processedPath] else [])

/-- Go `time.Hour` in nanoseconds, the duration the presigned variant passes
to the presigner. -/
def timeHour : Nat := 3600000000000

/-- Embedding of `generatePresignedURL` (part_002): the S3 presign client is
an external collaborator, modelled as the function argument. -/
def generatePresignedURL (presign : String → String → Nat → Except String String)
    (bucket key : String) (expireTime : Nat) : Except String String :=
  presign bucket key expireTime

/-- Embedding of `dbVideoToSignedVideo` (part_002): a nil or empty stored
URL is returned unchanged; otherwise the stored value is split on `,` and
must give exactly a bucket and a key, which are presigned with a 1-hour
expiry. -/
def dbVideoToSignedVideo (presign : String → String → Nat → Except String String)
    (video : Video) : Except String Video :=
  match video.videoURL with
  | none => Except.ok video
  | some u =>
    if u = "" then Except.ok video
    else
      match splitOnChar ',' u with
      | [bucket, key] =>
        match generatePresignedURL presign bucket key timeHour with
        | Except.error e => Except.error e
        | Except.ok url => Except.ok { video with videoURL := some url }
      | _ => Except.error "invalid stored video URL format"

/-- Orientation classification of part_002's presigned variant
(lines 347–364): split the ratio on `:`; with exactly two parts compare the
`strconv.Atoi` values (errors ignored, yielding 0); otherwise default. -/
def orientationPfxDash (ratio : String) : String :=
  match splitOnChar ':' ratio with
  | [a, b] =>
    let w := atoi a
    let h := atoi b
    if w > h then "landscape-"
    else if h > w then "portrait-"
    else "other-"
  | _ => "other-"

/-- Orientation classification of part_002's direct-URL variant
(lines 122–139): identical control flow but `/`-terminated prefixes. -/
def orientationPfxSlash (ratio : String) : String :=
  match splitOnChar ':' ratio with
  | [a, b] =>
    let w := atoi a
    let h := atoi b
    if w > h then "landscape/"
    else if h > w then "portrait/"
    else "other/"
  | _ => "other/"

/-- Oracles for the video handlers: metadata store, temp-file creation
(`os.CreateTemp`, with the name it would pick), copy/seek success, the two
external tools, the processed-file open, the S3 put, the random hex of
`uuid.New`, and the presigner. -/
structure VideoEnv where
  getVideo : String → Option Video
  updateOk : Bool
  createTempOk : Bool
  tempName : String
  copyOk : Bool
  seekOk : Bool
  ffprobe : FfprobeResult
  ffmpeg : Ffmpeg
  openProcessedOk : Bool
  s3PutOk : Bool
  newHex : String
  presign : String → String → Nat → Except String String

/-- Observable outcome of a video handler: HTTP status, success body,
successfully persisted record updates, successful object-store puts
(bucket, key), and the staging/processing files still on disk after every
deferred cleanup has run. -/
structure VideoOutcome where
  status : Nat
  okBody : Option Video
  dbUpdates : List Video
  s3Puts : List (String × String)
  tempFilesAfter : List String
deriving DecidableEq

/-- Error outcome of a video handler. -/
def errVideo (status : Nat) (puts : List (String × String))
    (updates : List Video) (tmp : List String) : VideoOutcome :=
  { status := status, okBody := none, dbUpdates := updates,
    s3Puts := puts, tempFilesAfter := tmp }

/-! ## Video handlers -/

/-- Embedding of `handlerUploadVideo` from part_001: no orientation step, no
remux; the persisted URL is the direct public S3 URL.  The deferred
`tempFile.Close(); os.Remove(tempFile.Name())` guarantees the staging file
is gone on every exit path past its creation. -/
def handlerUploadVideoSimple (cfg : ApiCfg) (env : VideoEnv)
    (r : UploadRequest) : VideoOutcome :=
  match r.videoID with
  | none => errVideo 400 [] [] []
  | some videoID =>
    match r.bearerToken with
    | none => errVideo 401 [] [] []
    | some _token =>
      if !r.jwtValid then errVideo 401 [] [] []
      else
        match env.getVideo videoID with
        | none => errVideo 404 [] [] []
        | some video =>
          if video.userID ≠ r.userID then errVideo 401 [] [] []
          else if !r.parseFormOk then errVideo 400 [] [] []
          else
            match r.formFile with
            | none => errVideo 400 [] [] []
            | some part =>
              if part.contentType = "" then errVideo 400 [] [] []
              else
                match parseMediaType part.contentType with
                | none => errVideo 400 [] [] []
                | some mediaType =>
                  if mediaType ≠ "video/mp4" then errVideo 400 [] [] []
                  else if !env.createTempOk then errVideo 500 [] [] []
                  else if !env.copyOk then errVideo 500 [] [] []
                  else if !env.seekOk then errVideo 500 [] [] []
                  else
                    let videoKey := env.newHex ++ filepathExt part.filename
                    if !env.s3PutOk then errVideo 500 [] [] []
                    else
                      let puts := [(cfg.s3Bucket, videoKey)]
                      let videoURL := "https://" ++ cfg.s3Bucket ++ ".s3." ++
                        cfg.s3Region ++ ".amazonaws.com/" ++ videoKey
                      let video' := { video with videoURL := some videoURL }
                      if !env.updateOk then errVideo 500 puts [] []
                      else
                        { status := 200, okBody := some video',
                          dbUpdates := [video'], s3Puts := puts,
                          tempFilesAfter := [] }

/-- Embedding of `handlerUploadVideo` from part_002's first file: adds the
ffprobe orientation step with `/`-terminated prefixes; the persisted URL is
the direct public S3 URL. -/
def handlerUploadVideoDirect (cfg : ApiCfg) (env : VideoEnv)
    (r : UploadRequest) : VideoOutcome :=
  match r.videoID with
  | none => errVideo 400 [] [] []
  | some videoID =>
    match r.bearerToken with
    | none => errVideo 401 [] [] []
    | some _token =>
      if !r.jwtValid then errVideo 401 [] [] []
      else
        match env.getVideo videoID with
        | none => errVideo 404 [] [] []
        | some video =>
          if video.userID ≠ r.userID then errVideo 401 [] [] []
          else if !r.parseFormOk then errVideo 400 [] [] []
          else
            match r.formFile with
            | none => errVideo 400 [] [] []
            | some part =>
              if part.contentType = "" then errVideo 400 [] [] []
              else
                match parseMediaType part.contentType with
                | none => errVideo 400 [] [] []
                | some mediaType =>
                  if mediaType ≠ "video/mp4" then errVideo 400 [] [] []
                  else if !env.createTempOk then errVideo 500 [] [] []
                  else if !env.copyOk then errVideo 500 [] [] []
                  else if !env.seekOk then errVideo 500 [] [] []
                  else
                    match getVideoAspectRatio env.ffprobe with
                    | Except.error _ => errVideo 500 [] [] []
                    | Except.ok ratio =>
                      let pfx := orientationPfxSlash ratio
                      let videoKey :=
                        pfx ++ env.newHex ++ filepathExt part.filename
                      if !env.s3PutOk then errVideo 500 [] [] []
                      else
                        let puts := [(cfg.s3Bucket, videoKey)]
                        let videoURL := "https://" ++ cfg.s3Bucket ++ ".s3." ++
                          cfg.s3Region ++ ".amazonaws.com/" ++ videoKey
                        let video' := { video with videoURL := some videoURL }
                        if !env.updateOk then errVideo 500 puts [] []
                        else
                          { status := 200, okBody := some video',
                            dbUpdates := [video'], s3Puts := puts,
                            tempFilesAfter := [] }

/-- Embedding of `handlerUploadVideo` from part_002's second file (the
presigned variant): `-`-terminated orientation prefixes, fast-start remux,
persistence of the `bucket,key` composite, and a presigned URL in the
response.  `defer os.Remove(processedPath)` is registered only after
`processVideoForFastStart` succeeds, so a `.processing` file left behind by
a failing ffmpeg run is never removed. -/
def handlerUploadVideoPresigned (cfg : ApiCfg) (env : VideoEnv)
    (r : UploadRequest) : VideoOutcome :=
  match r.videoID with
  | none => errVideo 400 [] [] []
  | some videoID =>
    match r.bearerToken with
    | none => errVideo 401 [] [] []
    | some _token =>
      if !r.jwtValid then errVideo 401 [] [] []
      else
        match env.getVideo videoID with
        | none => errVideo 404 [] [] []
        | some video =>
          if video.userID ≠ r.userID then errVideo 401 [] [] []
          else if !r.parseFormOk then errVideo 400 [] [] []
          else
            match r.formFile with
            | none => errVideo 400 [] [] []
            | some part =>
              if part.contentType = "" then errVideo 400 [] [] []
              else
                match parseMediaType part.contentType with
                | none => errVideo 400 [] [] []
                | some mediaType =>
                  if mediaType ≠ "video/mp4" then errVideo 400 [] [] []
                  else if !env.createTempOk then errVideo 500 [] [] []
                  else if !env.copyOk then errVideo 500 [] [] []
                  else if !env.seekOk then errVideo 500 [] [] []
                  else
                    match getVideoAspectRatio env.ffprobe with
                    | Except.error _ => errVideo 500 [] [] []
                    | Except.ok ratio =>
                      let pfx := orientationPfxDash ratio
                      let proc := processVideoForFastStart env.ffmpeg env.tempName
                      match proc.1 with
                      | Except.error _ => errVideo 500 [] [] proc.2
                      | Except.ok _processedPath =>
                        if !env.openProcessedOk then errVideo 500 [] [] []
                        else
                          let videoKey :=
                            pfx ++ env.newHex ++ filepathExt part.filename
                          if !env.s3PutOk then errVideo 500 [] [] []
                          else
                            let puts := [(cfg.s3Bucket, videoKey)]
                            let bucketAndKey :=
                              cfg.s3Bucket ++ "," ++ videoKey
                            let video' :=
                              { video with videoURL := some bucketAndKey }
                            if !env.updateOk then errVideo 500 puts [] []
                            else
                              match dbVideoToSignedVideo env.presign video' with
                              | Except.error _ =>
                                errVideo 500 puts [video'] []
                              | Except.ok signedVideo =>
                                { status := 200, okBody := some signedVideo,
                                  dbUpdates := [video'], s3Puts := puts,
                                  tempFilesAfter := [] }

/-! ## Concrete sample inputs used by witnesses and counterexamples -/

/-- Sample record owned by "alice". -/
def sampleVideo : Video :=
  { id := "v1", userID := "alice", thumbnailURL := none, videoURL := none }

/-- Sample server configuration. -/
def sampleCfg : ApiCfg :=
  { assetsRoot := "/assets", assetsBaseURL := "http://localhost:8091/assets",
    s3Bucket := "tubely", s3Region := "us-east-1" }

/-- Sample presigner that succeeds and embeds its arguments. -/
def presignEcho : String → String → Nat → Except String String :=
  fun bucket key _ttl =>
    Except.ok ("https://sign.example/" ++ bucket ++ "/" ++ key)

/-- Thumbnail environment in which every external step succeeds and the
store holds `sampleVideo` under every ID. -/
def okThumbEnv : ThumbEnv :=
  { getVideo := fun _ => some sampleVideo, updateOk := true, createOk := true,
    copyOk := true, readAllOk := true, base64 := fun s => s ++ "#b64" }

/-- Video environment in which every external step succeeds, ffprobe reports
a 1920x1080 stream, and the store holds `sampleVideo` under every ID. -/
def okVideoEnv : VideoEnv :=
  { getVideo := fun _ => some sampleVideo, updateOk := true,
    createTempOk := true, tempName := "/tmp/tubely-upload-42.mp4",
    copyOk := true, seekOk := true, ffprobe := .streams [(1920, 1080)],
    ffmpeg := { exitOk := true, wroteOutput := true },
    openProcessedOk := true, s3PutOk := true, newHex := "deadbeef",
    presign := presignEcho }

/-- A well-formed request from "alice" carrying the given file part. -/
def okReq (part : FilePart) : UploadRequest :=
  { videoID := some "v1", bearerToken := some "tok", jwtValid := true,
    userID := "alice", parseFormOk := true, formFile := some part }

/-- A jpeg thumbnail part. -/
def jpegPart : FilePart :=
  { contentType := "image/jpeg", filename := "t.jpg", bytes := "JPEGDATA" }

/-- A text/plain part (disallowed for thumbnails by the spec). -/
def plainPart : FilePart :=
  { contentType := "text/plain", filename := "t.txt", bytes := "HELLO" }

/-- An mp4 video part with an ordinary filename. -/
def mp4Part : FilePart :=
  { contentType := "video/mp4", filename := "clip.mp4", bytes := "MP4DATA" }

/-- An mp4 video part whose client-chosen filename extension contains a
comma. -/
def commaPart : FilePart :=
  { contentType := "video/mp4", filename := "clip.m,p4", bytes := "MP4DATA" }

/-- A png thumbnail part. -/
def pngPart : FilePart :=
  { contentType := "image/png", filename := "t.png", bytes := "PNGDATA" }

/-- A well-formed request whose multipart form carries no file field
(`r.FormFile` fails). -/
def noFileReq : UploadRequest :=
  { videoID := some "v1", bearerToken := some "tok", jwtValid := true,
    userID := "alice", parseFormOk := true, formFile := none }

/-- Sample record owned by "bob". -/
def bobVideo : Video :=
  { id := "v1", userID := "bob", thumbnailURL := none, videoURL := none }

/-- Thumbnail environment whose store holds a record owned by "bob". -/
def nonOwnerThumbEnv : ThumbEnv :=
  { okThumbEnv with getVideo := fun _ => some bobVideo }

/-- Thumbnail environment whose store holds no record. -/
def emptyDbThumbEnv : ThumbEnv :=
  { okThumbEnv with getVideo := fun _ => none }

/-- Video environment whose store holds no record. -/
def emptyDbVideoEnv : VideoEnv :=
  { okVideoEnv with getVideo := fun _ => none }

/-- Video environment whose store holds a record owned by "bob". -/
def nonOwnerVideoEnv : VideoEnv :=
  { okVideoEnv with getVideo := fun _ => some bobVideo }

/-- Video environment in which ffmpeg fails after having written its
output file. -/
def ffmpegFailEnv : VideoEnv :=
  { okVideoEnv with ffmpeg := { exitOk := false, wroteOutput := true } }

/-- Video environment in which ffprobe reports a stream with zero height. -/
def zeroProbeEnv : VideoEnv :=
  { okVideoEnv with ffprobe := .streams [(1920, 0)] }

/-! ## Infrastructure lemmas -/

theorem data_mk (cs : List Char) : (String.mk cs).data = cs := rfl

theorem splitOnCharAux_no_sep (sep : Char) :
    ∀ cs acc, sep ∉ cs → splitOnCharAux sep cs acc = [acc.reverse ++ cs]
  | [], acc, _h => by simp [splitOnCharAux]
  | c :: cs, acc, h => by
    have hc : ¬ c = sep := by rintro rfl; exact h (List.mem_cons_self c cs)
    have h' : sep ∉ cs := fun m => h (List.mem_cons_of_mem c m)
    simp [splitOnCharAux, hc, splitOnCharAux_no_sep sep cs (c :: acc) h']

theorem splitOnCharAux_split (sep : Char) (b : List Char) :
    ∀ a acc, sep ∉ a →
      splitOnCharAux sep (a ++ sep :: b) acc =
        (acc.reverse ++ a) :: splitOnCharAux sep b []
  | [], acc, _h => by simp [splitOnCharAux]
  | c :: a, acc, h => by
    have hc : ¬ c = sep := by rintro rfl; exact h (List.mem_cons_self c a)
    have h' : sep ∉ a := fun m => h (List.mem_cons_of_mem c m)
    simp [splitOnCharAux, hc, splitOnCharAux_split sep b a (c :: acc) h']

/-- Splitting `x ++ sep ++ y` on `sep` gives exactly `[x, y]` when neither
side contains the separator. -/
theorem splitOnChar_append_pair (sep : Char) (x y : String)
    (hx : sep ∉ x.data) (hy : sep ∉ y.data) :
    splitOnChar sep (x ++ String.mk [sep] ++ y) = [x, y] := by
  obtain ⟨xs⟩ := x
  obtain ⟨ys⟩ := y
  simp only [data_mk] at hx hy
  have hdata : (String.mk xs ++ String.mk [sep] ++ String.mk ys).data
      = xs ++ sep :: ys := by
    simp [String.data_append]
  unfold splitOnChar
  rw [hdata, splitOnCharAux_split sep ys xs [] hx,
    splitOnCharAux_no_sep sep ys [] hy]
  simp

theorem digitChar_isDigit {d : Nat} (h : d < 10) :
    (digitChar d).isDigit = true := by
  interval_cases d <;> decide

theorem digitChar_toNat {d : Nat} (h : d < 10) :
    (digitChar d).toNat = 48 + d := by
  interval_cases d <;> decide

theorem natToCharsSpec_all_digits (n : Nat) :
    ∀ c ∈ natToCharsSpec n, c.isDigit = true := by
  induction n using Nat.strong_induction_on with
  | _ n ih =>
    rw [natToCharsSpec]
    split
    · next h =>
      intro c hc
      simp only [List.mem_singleton] at hc
      subst hc
      exact digitChar_isDigit h
    · next h =>
      intro c hc
      rw [List.mem_append] at hc
      rcases hc with hc | hc
      · exact ih (n / 10) (by omega) c hc
      · simp only [List.mem_singleton] at hc
        subst hc
        exact digitChar_isDigit (Nat.mod_lt _ (by norm_num))

theorem natToCharsSpec_ne_nil (n : Nat) : natToCharsSpec n ≠ [] := by
  rw [natToCharsSpec]
  split <;> simp

theorem parseDigitsVal_append (xs : List Char) (c : Char) :
    parseDigitsVal (xs ++ [c]) = parseDigitsVal xs * 10 + (c.toNat - 48) := by
  simp [parseDigitsVal, List.foldl_append]

theorem parseDigitsVal_natToCharsSpec (n : Nat) :
    parseDigitsVal (natToCharsSpec n) = n := by
  induction n using Nat.strong_induction_on with
  | _ n ih =>
    rw [natToCharsSpec]
    split
    · next h =>
      simp [parseDigitsVal, digitChar_toNat h]
    · next h =>
      rw [parseDigitsVal_append, ih (n / 10) (by omega),
        digitChar_toNat (Nat.mod_lt _ (by norm_num))]
      omega

theorem natToCharsAux_eq_spec :
    ∀ fuel, 1 ≤ fuel → ∀ n acc, n < 10 ^ fuel →
      natToCharsAux fuel n acc = natToCharsSpec n ++ acc := by
  intro fuel
  induction fuel with
  | zero => omega
  | succ f ih =>
    intro _ n acc hn
    unfold natToCharsAux
    split
    · next h =>
      rw [natToCharsSpec]
      simp [h]
    · next h =>
      have hf : 1 ≤ f := by
        rcases Nat.eq_zero_or_pos f with rfl | hpos
        · norm_num at hn; omega
        · omega
      have hdiv : n / 10 < 10 ^ f := by
        rw [pow_succ] at hn
        omega
      rw [ih hf (n / 10) (digitChar (n % 10) :: acc) hdiv]
      conv_rhs => rw [natToCharsSpec]
      simp [h]

theorem natToChars_eq_spec (n : Nat) : natToChars n = natToCharsSpec n := by
  unfold natToChars
  have hbound : n < 10 ^ (n + 1) := by
    calc n < 10 ^ n := Nat.lt_pow_self (by norm_num) n
      _ ≤ 10 ^ (n + 1) := Nat.pow_le_pow_right (by norm_num) (by omega)
  rw [natToCharsAux_eq_spec (n + 1) (by omega) n [] hbound]
  simp

theorem natToChars_all_digits (n : Nat) :
    ∀ c ∈ natToChars n, c.isDigit = true := by
  rw [natToChars_eq_spec]
  exact natToCharsSpec_all_digits n

theorem natToChars_ne_nil (n : Nat) : natToChars n ≠ [] := by
  rw [natToChars_eq_spec]
  exact natToCharsSpec_ne_nil n

theorem parseDigitsVal_natToChars (n : Nat) :
    parseDigitsVal (natToChars n) = n := by
  rw [natToChars_eq_spec]
  exact parseDigitsVal_natToCharsSpec n

theorem atoiNat?_natToChars (n : Nat) : atoiNat? (natToChars n) = some n := by
  have h1 := natToChars_all_digits n
  have h2 := natToChars_ne_nil n
  unfold atoiNat? allDigits
  rw [if_pos, parseDigitsVal_natToChars]
  simp only [Bool.and_eq_true, Bool.not_eq_true']
  constructor
  · cases hnc : natToChars n with
    | nil => exact absurd hnc h2
    | cons c cs => simp [List.isEmpty]
  · rw [List.all_eq_true]
    exact h1

theorem atoi_cons_digit (c : Char) (rest : List Char)
    (hc : c.isDigit = true) :
    atoi (String.mk (c :: rest)) =
      match atoiNat? (c :: rest) with
      | some n => (n : Int)
      | none => 0 := by
  have hcm : ¬ c = '-' := by rintro rfl; exact absurd hc (by decide)
  have hcp : ¬ c = '+' := by rintro rfl; exact absurd hc (by decide)
  simp [atoi, hcm, hcp]

theorem atoi_natToString (n : Nat) : atoi (natToString n) = (n : Int) := by
  unfold natToString
  have h1 := natToChars_all_digits n
  have h2 := natToChars_ne_nil n
  have h3 := atoiNat?_natToChars n
  revert h1 h2 h3
  cases natToChars n with
  | nil => intro _ h2 _; exact absurd rfl h2
  | cons c rest =>
    intro h1 _ h3
    rw [atoi_cons_digit c rest (h1 c (List.mem_cons_self c rest))]
    simp [h3]

theorem atoi_neg_natToChars (m : Nat) :
    atoi (String.mk ('-' :: natToChars m)) = -(m : Int) := by
  simp [atoi, atoiNat?_natToChars m]

/-- The `strconv.Atoi` model inverts the `fmt.Sprintf("%d", _)` model. -/
theorem atoi_intToString (i : Int) : atoi (intToString i) = i := by
  unfold intToString
  split
  · next h =>
    rw [atoi_neg_natToChars]
    omega
  · next h =>
    rw [atoi_natToString]
    omega

/-- No character other than `-` and decimal digits occurs in a printed
integer. -/
theorem not_mem_intToString {c : Char} (hc : c.isDigit = false)
    (hcm : c ≠ '-') (i : Int) : c ∉ (intToString i).data := by
  intro hmem
  unfold intToString at hmem
  split at hmem
  · simp only [data_mk, List.mem_cons] at hmem
    rcases hmem with rfl | hmem
    · exact hcm rfl
    · rw [natToChars_all_digits _ _ hmem] at hc
      exact Bool.true_eq_false.mp hc
  · unfold natToString at hmem
    rw [data_mk] at hmem
    rw [natToChars_all_digits _ _ hmem] at hc
    exact Bool.true_eq_false.mp hc

theorem self_ne_append_processing (s : String) : s ≠ s ++ ".processing" := by
  intro h
  have h2 := congrArg (fun t => t.data.length) h
  simp [String.data_append] at h2

theorem append_comma_ne_empty (x y : String) : x ++ "," ++ y ≠ "" := by
  intro h
  have h2 := congrArg (fun t => t.data.length) h
  simp [String.data_append] at h2

theorem comma_eq_mk : ("," : String) = String.mk [','] := rfl

theorem colon_eq_mk : (":" : String) = String.mk [':'] := rfl

/-- Inversion of a successful `dbVideoToSignedVideo` call on a non-empty
stored URL: the stored value split into exactly a bucket and a key, the
presigner succeeded on them with the 1-hour expiry, and the result carries
the presigned URL. -/
theorem dbVideoToSignedVideo_ok_inv
    (presign : String → String → Nat → Except String String)
    (v v' : Video) (s : String) (hv : v.videoURL = some s) (hne : s ≠ "")
    (h : dbVideoToSignedVideo presign v = Except.ok v') :
    ∃ b k url, splitOnChar ',' s = [b, k] ∧
      presign b k timeHour = Except.ok url ∧
      v' = { v with videoURL := some url } := by
  simp only [dbVideoToSignedVideo, hv] at h
  rw [if_neg hne] at h
  rcases hsp : splitOnChar ',' s with _ | ⟨b, _ | ⟨k, _ | ⟨c, rest⟩⟩⟩
  · rw [hsp] at h; cases h
  · rw [hsp] at h; cases h
  · rw [hsp] at h
    rcases hps : presign b k timeHour with e | url
    · simp only [generatePresignedURL, hps] at h
      cases h
    · simp only [generatePresignedURL, hps] at h
      refine ⟨b, k, url, rfl, hps, ?_⟩
      cases h
      rfl
  · rw [hsp] at h; cases h

/-- Whatever ffmpeg does, the only file `processVideoForFastStart` can leave
on disk is the `.processing` sibling of its input. -/
theorem processVideoForFastStart_mem_snd (tool : Ffmpeg) (fp p : String)
    (hp : p ∈ (processVideoForFastStart tool fp).2) :
    p = fp ++ ".processing" := by
  unfold processVideoForFastStart at hp
  cases htool : tool.exitOk
  · rw [htool] at hp
    simp only [Bool.false_eq_true, if_false] at hp
    cases hw : tool.wroteOutput
    · rw [hw] at hp
      simp at hp
    · rw [hw] at hp
      simp at hp
      exact hp
  · rw [htool] at hp
    simp at hp
    exact hp

/-- A file left behind by a failing `processVideoForFastStart` call is the
`.processing` sibling, and only a failing-but-output-writing ffmpeg run
produces one. -/
theorem processVideoForFastStart_error_mem (tool : Ffmpeg) (fp p : String)
    (herr : ∀ s, (processVideoForFastStart tool fp).1 ≠ Except.ok s)
    (hp : p ∈ (processVideoForFastStart tool fp).2) :
    p = fp ++ ".processing" ∧ tool.exitOk = false ∧
      tool.wroteOutput = true := by
  unfold processVideoForFastStart at herr hp
  cases htool : tool.exitOk
  · rw [htool] at hp
    simp only [Bool.false_eq_true, if_false] at hp
    cases hw : tool.wroteOutput
    · rw [hw] at hp
      simp at hp
    · rw [hw] at hp
      simp at hp
      exact ⟨hp, rfl, rfl⟩
  · rw [htool] at herr
    simp at herr

/-- After the presigned video handler returns, either nothing is left on
disk, or exactly the files a failing remux call left behind are (and the
remux call did fail). -/
theorem presigned_tempFilesAfter_cases (cfg : ApiCfg) (env : VideoEnv)
    (r : UploadRequest) :
    (handlerUploadVideoPresigned cfg env r).tempFilesAfter = [] ∨
    ((handlerUploadVideoPresigned cfg env r).tempFilesAfter =
        (processVideoForFastStart env.ffmpeg env.tempName).2 ∧
      ∀ s, (processVideoForFastStart env.ffmpeg env.tempName).1 ≠
        Except.ok s) := by
  rcases hvid : r.videoID with _ | vid
  · exact Or.inl (by simp [handlerUploadVideoPresigned, hvid, errVideo])
  rcases hbt : r.bearerToken with _ | tok
  · exact Or.inl (by simp [handlerUploadVideoPresigned, hvid, hbt, errVideo])
  cases hjwt : r.jwtValid
  · exact Or.inl (by simp [handlerUploadVideoPresigned, hvid, hbt, hjwt,
      errVideo])
  rcases hgv : env.getVideo vid with _ | video
  · exact Or.inl (by simp [handlerUploadVideoPresigned, hvid, hbt, hjwt,
      hgv, errVideo])
  rcases eq_or_ne video.userID r.userID with howner | howner
  swap
  · exact Or.inl (by simp [handlerUploadVideoPresigned, hvid, hbt, hjwt,
      hgv, howner, errVideo])
  cases hpf : r.parseFormOk
  · exact Or.inl (by simp [handlerUploadVideoPresigned, hvid, hbt, hjwt,
      hgv, howner, hpf, errVideo])
  rcases hff : r.formFile with _ | part
  · exact Or.inl (by simp [handlerUploadVideoPresigned, hvid, hbt, hjwt,
      hgv, howner, hpf, hff, errVideo])
  rcases eq_or_ne part.contentType "" with hct | hct
  · exact Or.inl (by simp [handlerUploadVideoPresigned, hvid, hbt, hjwt,
      hgv, howner, hpf, hff, hct, errVideo])
  rcases hpm : parseMediaType part.contentType with _ | mt
  · exact Or.inl (by simp [handlerUploadVideoPresigned, hvid, hbt, hjwt,
      hgv, howner, hpf, hff, hct, hpm, errVideo])
  rcases eq_or_ne mt "video/mp4" with hmt | hmt
  swap
  · exact Or.inl (by simp [handlerUploadVideoPresigned, hvid, hbt, hjwt,
      hgv, howner, hpf, hff, hct, hpm, hmt, errVideo])
  cases hcr : env.createTempOk
  · exact Or.inl (by simp [handlerUploadVideoPresigned, hvid, hbt, hjwt,
      hgv, howner, hpf, hff, hct, hpm, hmt, hcr, errVideo])
  cases hcp : env.copyOk
  · exact Or.inl (by simp [handlerUploadVideoPresigned, hvid, hbt, hjwt,
      hgv, howner, hpf, hff, hct, hpm, hmt, hcr, hcp, errVideo])
  cases hsk : env.seekOk
  · exact Or.inl (by simp [handlerUploadVideoPresigned, hvid, hbt, hjwt,
      hgv, howner, hpf, hff, hct, hpm, hmt, hcr, hcp, hsk, errVideo])
  rcases hratio : getVideoAspectRatio env.ffprobe with e | ratio
  · exact Or.inl (by simp [handlerUploadVideoPresigned, hvid, hbt, hjwt,
      hgv, howner, hpf, hff, hct, hpm, hmt, hcr, hcp, hsk, hratio, errVideo])
  rcases hproc : (processVideoForFastStart env.ffmpeg env.tempName).1
    with e | pp
  · refine Or.inr ⟨?_, ?_⟩
    · simp [handlerUploadVideoPresigned, hvid, hbt, hjwt, hgv, howner, hpf,
        hff, hct, hpm, hmt, hcr, hcp, hsk, hratio, hproc, errVideo]
    · intro s hs
      exact Except.noConfusion hs
  cases hopen : env.openProcessedOk
  · exact Or.inl (by simp [handlerUploadVideoPresigned, hvid, hbt, hjwt,
      hgv, howner, hpf, hff, hct, hpm, hmt, hcr, hcp, hsk, hratio, hproc,
      hopen, errVideo])
  cases hput : env.s3PutOk
  · exact Or.inl (by simp [handlerUploadVideoPresigned, hvid, hbt, hjwt,
      hgv, howner, hpf, hff, hct, hpm, hmt, hcr, hcp, hsk, hratio, hproc,
      hopen, hput, errVideo])
  cases hupd : env.updateOk
  · exact Or.inl (by simp [handlerUploadVideoPresigned, hvid, hbt, hjwt,
      hgv, howner, hpf, hff, hct, hpm, hmt, hcr, hcp, hsk, hratio, hproc,
      hopen, hput, hupd, errVideo])
  rcases hsign :
      dbVideoToSignedVideo env.presign
        { id := video.id, userID := r.userID,
          thumbnailURL := video.thumbnailURL,
          videoURL := some (cfg.s3Bucket ++ "," ++
            (orientationPfxDash ratio ++ env.newHex ++
              filepathExt part.filename)) }
    with e | signed
  · exact Or.inl (by simp [handlerUploadVideoPresigned, hvid, hbt, hjwt,
      hgv, howner, hpf, hff, hct, hpm, hmt, hcr, hcp, hsk, hratio, hproc,
      hopen, hput, hupd, hsign, errVideo])
  · exact Or.inl (by simp [handlerUploadVideoPresigned, hvid, hbt, hjwt,
      hgv, howner, hpf, hff, hct, hpm, hmt, hcr, hcp, hsk, hratio, hproc,
      hopen, hput, hupd, hsign, errVideo])

/-! ## Claim theorems -/

/-- C9: `dbVideoToSignedVideo` returns the record unchanged with no error
when the stored video URL is nil or empty, and returns an error (never a
resolved URL) when the non-empty stored URL does not split on `,` into
exactly two parts. -/
theorem C9_signed_video_url_shapes :
    (∀ (presign : String → String → Nat → Except String String) (v : Video),
      v.videoURL = none → dbVideoToSignedVideo presign v = Except.ok v) ∧
    (∀ (presign : String → String → Nat → Except String String) (v : Video),
      v.videoURL = some "" → dbVideoToSignedVideo presign v = Except.ok v) ∧
    (∀ (presign : String → String → Nat → Except String String) (v : Video)
      (u : String), v.videoURL = some u → u ≠ "" →
      (splitOnChar ',' u).length ≠ 2 →
      dbVideoToSignedVideo presign v =
        Except.error "invalid stored video URL format") := by
  refine ⟨?_, ?_, ?_⟩
  · intro presign v h
    simp [dbVideoToSignedVideo, h]
  · intro presign v h
    simp [dbVideoToSignedVideo, h]
  · intro presign v u h hne hlen
    simp only [dbVideoToSignedVideo, h]
    rw [if_neg hne]
    rcases hsp : splitOnChar ',' u with _ | ⟨a, _ | ⟨b, _ | ⟨c, rest⟩⟩⟩
    · rfl
    · rfl
    · rw [hsp] at hlen
      simp at hlen
    · rfl

/-- C9 witness: a nil URL and an empty URL pass through unchanged; a stored
direct https URL (no comma) makes resolution fail. -/
theorem C9_witness :
    dbVideoToSignedVideo presignEcho sampleVideo = Except.ok sampleVideo ∧
    dbVideoToSignedVideo presignEcho { sampleVideo with videoURL := some "" }
      = Except.ok { sampleVideo with videoURL := some "" } ∧
    dbVideoToSignedVideo presignEcho { sampleVideo with
      videoURL := some "https://tubely.s3.us-east-1.amazonaws.com/abc.mp4" }
      = Except.error "invalid stored video URL format" := by
  refine ⟨?_, ?_, ?_⟩
  · exact C9_signed_video_url_shapes.1 presignEcho sampleVideo rfl
  · exact C9_signed_video_url_shapes.2.1 presignEcho
      { sampleVideo with videoURL := some "" } rfl
  · exact C9_signed_video_url_shapes.2.2 presignEcho
      { sampleVideo with
        videoURL := some "https://tubely.s3.us-east-1.amazonaws.com/abc.mp4" }
      "https://tubely.s3.us-east-1.amazonaws.com/abc.mp4" rfl (by decide)
      (by decide)

/-- C4 counterexample: with the client filename `clip.m,p4` the presigned
upload persists the composite `tubely,landscape-deadbeef.m,p4`; resolving
that stored value through `dbVideoToSignedVideo` yields an error rather
than reconstructing the original bucket and key, so the round trip fails
for this key used at upload time (the handler run itself ends in 500 at
the signing step). -/
theorem C4_counterexample :
    (handlerUploadVideoPresigned sampleCfg okVideoEnv (okReq commaPart)).dbUpdates
      = [{ sampleVideo with videoURL := some "tubely,landscape-deadbeef.m,p4" }] ∧
    dbVideoToSignedVideo presignEcho
      { sampleVideo with videoURL := some "tubely,landscape-deadbeef.m,p4" }
      = Except.error "invalid stored video URL format" ∧
    (handlerUploadVideoPresigned sampleCfg okVideoEnv (okReq commaPart)).status
      = 500 := by
  refine ⟨by decide, rfl, by decide⟩

/-- C4 (amended): the composite encoding round-trips exactly for every
bucket and key that contain no comma: resolving the persisted
`bucket ++ "," ++ key` hands exactly the original bucket and key to the
presigner (with the 1-hour expiry) and returns its URL.  A key containing
a comma — possible at upload time because the extension is taken from the
client-controlled filename — instead makes resolution fail. -/
theorem C4_composite_roundtrip
    (presign : String → String → Nat → Except String String)
    (v : Video) (bucket key : String)
    (hb : ',' ∉ bucket.data) (hk : ',' ∉ key.data) :
    dbVideoToSignedVideo presign
        { v with videoURL := some (bucket ++ "," ++ key) } =
      match presign bucket key timeHour with
      | Except.ok url => Except.ok { v with videoURL := some url }
      | Except.error e => Except.error e := by
  have hne : bucket ++ "," ++ key ≠ "" := append_comma_ne_empty bucket key
  have hsplit : splitOnChar ',' (bucket ++ "," ++ key) = [bucket, key] := by
    rw [comma_eq_mk]
    exact splitOnChar_append_pair ',' bucket key hb hk
  simp only [dbVideoToSignedVideo]
  rw [if_neg hne, hsplit]
  rcases hps : presign bucket key timeHour with e | url <;>
    simp [generatePresignedURL, hps]

/-- C4 witness: a comma-free bucket and key round-trip through persistence
and resolution to a presigned URL of exactly that bucket and key. -/
theorem C4_witness :
    dbVideoToSignedVideo presignEcho { sampleVideo with
      videoURL := some ("tubely" ++ "," ++ "landscape-deadbeef.mp4") } =
      Except.ok { sampleVideo with
        videoURL := some "https://sign.example/tubely/landscape-deadbeef.mp4" }
      := by
  rw [C4_composite_roundtrip presignEcho sampleVideo "tubely"
    "landscape-deadbeef.mp4" (by decide) (by decide)]
  rfl

/-- C2: at the failing form-file step of both thumbnail handlers the 400
error response is produced, but the handler does not return: the source
lacks `return` after `respondWithError`, so execution continues into the
nil multipart header dereference (modelled as `panicked`), contradicting
the immediate-termination propagation policy. -/
theorem C2_formfile_missing_return :
    (handlerUploadThumbnailDisk sampleCfg okThumbEnv noFileReq).status = 400 ∧
    (handlerUploadThumbnailDisk sampleCfg okThumbEnv noFileReq).panicked = true ∧
    (handlerUploadThumbnailData okThumbEnv noFileReq).status = 400 ∧
    (handlerUploadThumbnailData okThumbEnv noFileReq).panicked = true := by
  exact ⟨rfl, rfl, rfl, rfl⟩

/-- C1 counterexample: the data-URL thumbnail variant accepts a
`text/plain` upload — the response is 200, not 400, and the record's
thumbnail URL is mutated. -/
theorem C1_counterexample :
    (handlerUploadThumbnailData okThumbEnv (okReq plainPart)).status = 200 ∧
    (handlerUploadThumbnailData okThumbEnv (okReq plainPart)).dbUpdates =
      [{ sampleVideo with
          thumbnailURL := some "data:text/plain;base64,HELLO#b64" }] := by
  refine ⟨by decide, by decide⟩

/-- C1 (amended): in the disk-backed thumbnail variant, every authenticated
request whose uploaded file's parsed media type is neither image/jpeg nor
image/png gets status 400 and no record update; the data-URL variant
performs no such check — any file part with a non-empty content type is
accepted, and when the remaining steps succeed the record's thumbnail URL
is mutated to the corresponding data URL with status 200. -/
theorem C1_thumbnail_type_allowlist :
    (∀ (cfg : ApiCfg) (env : ThumbEnv) (r : UploadRequest)
      (tok : String) (part : FilePart) (t : String),
      r.bearerToken = some tok → r.jwtValid = true →
      r.formFile = some part →
      parseMediaType part.contentType = some t →
      t ≠ "image/jpeg" → t ≠ "image/png" →
      (handlerUploadThumbnailDisk cfg env r).status = 400 ∧
      (handlerUploadThumbnailDisk cfg env r).dbUpdates = []) ∧
    (∀ (env : ThumbEnv) (r : UploadRequest) (vid tok : String)
      (part : FilePart) (video : Video),
      r.videoID = some vid → r.bearerToken = some tok → r.jwtValid = true →
      r.parseFormOk = true → r.formFile = some part →
      part.contentType ≠ "" → env.readAllOk = true →
      env.getVideo vid = some video → video.userID = r.userID →
      env.updateOk = true →
      (handlerUploadThumbnailData env r).status = 200 ∧
      (handlerUploadThumbnailData env r).dbUpdates =
        [{ video with
            thumbnailURL := some ("data:" ++ part.contentType ++
              ";base64," ++ env.base64 part.bytes) }]) := by
  constructor
  · intro cfg env r tok part t hbt hjwt hff hparse hj hp
    have hne : part.contentType ≠ "" := by
      intro e
      rw [e] at hparse
      exact Option.noConfusion hparse
    have hout : handlerUploadThumbnailDisk cfg env r = errThumb 400 [] := by
      cases hvid : r.videoID with
      | none => simp [handlerUploadThumbnailDisk, hvid]
      | some vid =>
        cases hpf : r.parseFormOk with
        | false => simp [handlerUploadThumbnailDisk, hvid, hbt, hjwt, hpf]
        | true =>
          simp [handlerUploadThumbnailDisk, hvid, hbt, hjwt, hpf, hff, hne,
            hparse, hj, hp]
    rw [hout]
    exact ⟨rfl, rfl⟩
  · intro env r vid tok part video hvid hbt hjwt hpf hff hne hread hgv
      howner hupd
    have hout : handlerUploadThumbnailData env r =
        { status := 200,
          okBody := some { video with
            thumbnailURL := some ("data:" ++ part.contentType ++
              ";base64," ++ env.base64 part.bytes) },
          panicked := false, filesWritten := [],
          dbUpdates := [{ video with
            thumbnailURL := some ("data:" ++ part.contentType ++
              ";base64," ++ env.base64 part.bytes) }] } := by
      simp [handlerUploadThumbnailData, hvid, hbt, hjwt, hpf, hff, hne,
        hread, hgv, howner, hupd]
    rw [hout]
    exact ⟨rfl, rfl⟩

/-- C1 witness: a text/plain thumbnail gets 400 and no update in the
disk-backed variant; a jpeg thumbnail succeeds with a data URL in the
data-URL variant. -/
theorem C1_witness :
    ((handlerUploadThumbnailDisk sampleCfg okThumbEnv (okReq plainPart)).status
        = 400 ∧
      (handlerUploadThumbnailDisk sampleCfg okThumbEnv (okReq plainPart)).dbUpdates
        = []) ∧
    ((handlerUploadThumbnailData okThumbEnv (okReq jpegPart)).status = 200 ∧
      (handlerUploadThumbnailData okThumbEnv (okReq jpegPart)).dbUpdates =
        [{ sampleVideo with
            thumbnailURL := some ("data:" ++ "image/jpeg" ++ ";base64," ++
              okThumbEnv.base64 "JPEGDATA") }]) := by
  constructor
  · exact C1_thumbnail_type_allowlist.1 sampleCfg okThumbEnv (okReq plainPart)
      "tok" plainPart "text/plain" rfl rfl rfl (by decide) (by decide)
      (by decide)
  · exact C1_thumbnail_type_allowlist.2 okThumbEnv (okReq jpegPart) "v1" "tok"
      jpegPart sampleVideo rfl rfl rfl rfl rfl (by decide) rfl rfl rfl rfl

/-- C5 counterexample: a thumbnail upload whose video ID has no record gets
status 500 from the disk-backed thumbnail handler, not the 404 the claim
states for every upload handler. -/
theorem C5_counterexample :
    emptyDbThumbEnv.getVideo "v1" = none ∧
    (handlerUploadThumbnailDisk sampleCfg emptyDbThumbEnv (okReq jpegPart)).status
      = 500 ∧
    (handlerUploadThumbnailDisk sampleCfg emptyDbThumbEnv (okReq jpegPart)).status
      ≠ 404 := by
  refine ⟨rfl, by decide, by decide⟩

/-- C5 (amended): all three video upload handlers turn a metadata-store
lookup failure into a 404 response with no record update; the two thumbnail
handlers instead turn the same failure into a 500 response (also with no
update). -/
theorem C5_lookup_failure_status :
    (∀ (cfg : ApiCfg) (env : VideoEnv) (r : UploadRequest) (vid tok : String),
      r.videoID = some vid → r.bearerToken = some tok → r.jwtValid = true →
      env.getVideo vid = none →
      (handlerUploadVideoPresigned cfg env r).status = 404 ∧
      (handlerUploadVideoPresigned cfg env r).dbUpdates = []) ∧
    (∀ (cfg : ApiCfg) (env : VideoEnv) (r : UploadRequest) (vid tok : String),
      r.videoID = some vid → r.bearerToken = some tok → r.jwtValid = true →
      env.getVideo vid = none →
      (handlerUploadVideoDirect cfg env r).status = 404 ∧
      (handlerUploadVideoDirect cfg env r).dbUpdates = []) ∧
    (∀ (cfg : ApiCfg) (env : VideoEnv) (r : UploadRequest) (vid tok : String),
      r.videoID = some vid → r.bearerToken = some tok → r.jwtValid = true →
      env.getVideo vid = none →
      (handlerUploadVideoSimple cfg env r).status = 404 ∧
      (handlerUploadVideoSimple cfg env r).dbUpdates = []) ∧
    (∀ (cfg : ApiCfg) (env : ThumbEnv) (r : UploadRequest) (vid tok : String)
      (part : FilePart) (t : String),
      r.videoID = some vid → r.bearerToken = some tok → r.jwtValid = true →
      r.parseFormOk = true → r.formFile = some part →
      parseMediaType part.contentType = some t →
      (t = "image/jpeg" ∨ t = "image/png") →
      env.createOk = true → env.copyOk = true →
      env.getVideo vid = none →
      (handlerUploadThumbnailDisk cfg env r).status = 500 ∧
      (handlerUploadThumbnailDisk cfg env r).dbUpdates = []) ∧
    (∀ (env : ThumbEnv) (r : UploadRequest) (vid tok : String)
      (part : FilePart),
      r.videoID = some vid → r.bearerToken = some tok → r.jwtValid = true →
      r.parseFormOk = true → r.formFile = some part →
      part.contentType ≠ "" → env.readAllOk = true →
      env.getVideo vid = none →
      (handlerUploadThumbnailData env r).status = 500 ∧
      (handlerUploadThumbnailData env r).dbUpdates = []) := by
  refine ⟨?_, ?_, ?_, ?_, ?_⟩
  · intro cfg env r vid tok hvid hbt hjwt hgv
    have hout : handlerUploadVideoPresigned cfg env r = errVideo 404 [] [] [] := by
      simp [handlerUploadVideoPresigned, hvid, hbt, hjwt, hgv]
    rw [hout]
    exact ⟨rfl, rfl⟩
  · intro cfg env r vid tok hvid hbt hjwt hgv
    have hout : handlerUploadVideoDirect cfg env r = errVideo 404 [] [] [] := by
      simp [handlerUploadVideoDirect, hvid, hbt, hjwt, hgv]
    rw [hout]
    exact ⟨rfl, rfl⟩
  · intro cfg env r vid tok hvid hbt hjwt hgv
    have hout : handlerUploadVideoSimple cfg env r = errVideo 404 [] [] [] := by
      simp [handlerUploadVideoSimple, hvid, hbt, hjwt, hgv]
    rw [hout]
    exact ⟨rfl, rfl⟩
  · intro cfg env r vid tok part t hvid hbt hjwt hpf hff hparse hallow hcr hcp
      hgv
    have hne : part.contentType ≠ "" := by
      intro e
      rw [e] at hparse
      exact Option.noConfusion hparse
    have hcond : ¬(t ≠ "image/jpeg" ∧ t ≠ "image/png") := by
      rcases hallow with rfl | rfl <;> simp
    have hout : handlerUploadThumbnailDisk cfg env r = errThumb 500
        [(getAssetDiskPath cfg (getAssetPath vid part.contentType),
          part.bytes)] := by
      simp [handlerUploadThumbnailDisk, hvid, hbt, hjwt, hpf, hff, hne,
        hparse, hcond, hcr, hcp, hgv]
    rw [hout]
    exact ⟨rfl, rfl⟩
  · intro env r vid tok part hvid hbt hjwt hpf hff hne hread hgv
    have hout : handlerUploadThumbnailData env r = errThumb 500 [] := by
      simp [handlerUploadThumbnailData, hvid, hbt, hjwt, hpf, hff, hne,
        hread, hgv]
    rw [hout]
    exact ⟨rfl, rfl⟩

/-- C5 witness: the presigned video handler answers 404 on a missing
record; the data-URL thumbnail handler answers 500 on the same condition. -/
theorem C5_witness :
    ((handlerUploadVideoPresigned sampleCfg emptyDbVideoEnv (okReq mp4Part)).status
        = 404 ∧
      (handlerUploadVideoPresigned sampleCfg emptyDbVideoEnv (okReq mp4Part)).dbUpdates
        = []) ∧
    ((handlerUploadThumbnailData emptyDbThumbEnv (okReq pngPart)).status = 500 ∧
      (handlerUploadThumbnailData emptyDbThumbEnv (okReq pngPart)).dbUpdates
        = []) := by
  constructor
  · exact C5_lookup_failure_status.1 sampleCfg emptyDbVideoEnv (okReq mp4Part)
      "v1" "tok" rfl rfl rfl rfl
  · exact C5_lookup_failure_status.2.2.2.2 emptyDbThumbEnv (okReq pngPart)
      "v1" "tok" pngPart rfl rfl rfl rfl rfl (by decide) rfl rfl

/-- C8 counterexample: a thumbnail request from a non-owner whose payload
is invalid (text/plain content type) is answered 400, not 401 — the
thumbnail handlers validate the payload before loading the record, so the
claimed "401 regardless of payload validity" fails. -/
theorem C8_counterexample :
    nonOwnerThumbEnv.getVideo "v1" = some bobVideo ∧
    bobVideo.userID ≠ (okReq plainPart).userID ∧
    (handlerUploadThumbnailDisk sampleCfg nonOwnerThumbEnv (okReq plainPart)).status
      = 400 := by
  refine ⟨rfl, by decide, by decide⟩

/-- C8 (amended): the video handlers check ownership before touching the
payload, so a non-owner gets 401 (and no update) whatever the rest of the
request looks like; the thumbnail handlers validate the payload first, so
they answer 401 with no update only once the ownership check is reached —
an invalid payload from a non-owner is answered 400 instead. -/
theorem C8_owner_mismatch_status :
    (∀ (cfg : ApiCfg) (env : VideoEnv) (r : UploadRequest) (vid tok : String)
      (video : Video),
      r.videoID = some vid → r.bearerToken = some tok → r.jwtValid = true →
      env.getVideo vid = some video → video.userID ≠ r.userID →
      (handlerUploadVideoPresigned cfg env r).status = 401 ∧
      (handlerUploadVideoPresigned cfg env r).dbUpdates = []) ∧
    (∀ (cfg : ApiCfg) (env : VideoEnv) (r : UploadRequest) (vid tok : String)
      (video : Video),
      r.videoID = some vid → r.bearerToken = some tok → r.jwtValid = true →
      env.getVideo vid = some video → video.userID ≠ r.userID →
      (handlerUploadVideoDirect cfg env r).status = 401 ∧
      (handlerUploadVideoDirect cfg env r).dbUpdates = []) ∧
    (∀ (cfg : ApiCfg) (env : VideoEnv) (r : UploadRequest) (vid tok : String)
      (video : Video),
      r.videoID = some vid → r.bearerToken = some tok → r.jwtValid = true →
      env.getVideo vid = some video → video.userID ≠ r.userID →
      (handlerUploadVideoSimple cfg env r).status = 401 ∧
      (handlerUploadVideoSimple cfg env r).dbUpdates = []) ∧
    (∀ (cfg : ApiCfg) (env : ThumbEnv) (r : UploadRequest) (vid tok : String)
      (part : FilePart) (t : String) (video : Video),
      r.videoID = some vid → r.bearerToken = some tok → r.jwtValid = true →
      r.parseFormOk = true → r.formFile = some part →
      parseMediaType part.contentType = some t →
      (t = "image/jpeg" ∨ t = "image/png") →
      env.createOk = true → env.copyOk = true →
      env.getVideo vid = some video → video.userID ≠ r.userID →
      (handlerUploadThumbnailDisk cfg env r).status = 401 ∧
      (handlerUploadThumbnailDisk cfg env r).dbUpdates = []) ∧
    (∀ (env : ThumbEnv) (r : UploadRequest) (vid tok : String)
      (part : FilePart) (video : Video),
      r.videoID = some vid → r.bearerToken = some tok → r.jwtValid = true →
      r.parseFormOk = true → r.formFile = some part →
      part.contentType ≠ "" → env.readAllOk = true →
      env.getVideo vid = some video → video.userID ≠ r.userID →
      (handlerUploadThumbnailData env r).status = 401 ∧
      (handlerUploadThumbnailData env r).dbUpdates = []) := by
  refine ⟨?_, ?_, ?_, ?_, ?_⟩
  · intro cfg env r vid tok video hvid hbt hjwt hgv howner
    have hout : handlerUploadVideoPresigned cfg env r = errVideo 401 [] [] [] := by
      simp [handlerUploadVideoPresigned, hvid, hbt, hjwt, hgv, howner]
    rw [hout]
    exact ⟨rfl, rfl⟩
  · intro cfg env r vid tok video hvid hbt hjwt hgv howner
    have hout : handlerUploadVideoDirect cfg env r = errVideo 401 [] [] [] := by
      simp [handlerUploadVideoDirect, hvid, hbt, hjwt, hgv, howner]
    rw [hout]
    exact ⟨rfl, rfl⟩
  · intro cfg env r vid tok video hvid hbt hjwt hgv howner
    have hout : handlerUploadVideoSimple cfg env r = errVideo 401 [] [] [] := by
      simp [handlerUploadVideoSimple, hvid, hbt, hjwt, hgv, howner]
    rw [hout]
    exact ⟨rfl, rfl⟩
  · intro cfg env r vid tok part t video hvid hbt hjwt hpf hff hparse hallow
      hcr hcp hgv howner
    have hne : part.contentType ≠ "" := by
      intro e
      rw [e] at hparse
      exact Option.noConfusion hparse
    have hcond : ¬(t ≠ "image/jpeg" ∧ t ≠ "image/png") := by
      rcases hallow with rfl | rfl <;> simp
    have hout : handlerUploadThumbnailDisk cfg env r = errThumb 401
        [(getAssetDiskPath cfg (getAssetPath vid part.contentType),
          part.bytes)] := by
      simp [handlerUploadThumbnailDisk, hvid, hbt, hjwt, hpf, hff, hne,
        hparse, hcond, hcr, hcp, hgv, howner]
    rw [hout]
    exact ⟨rfl, rfl⟩
  · intro env r vid tok part video hvid hbt hjwt hpf hff hne hread hgv howner
    have hout : handlerUploadThumbnailData env r = errThumb 401 [] := by
      simp [handlerUploadThumbnailData, hvid, hbt, hjwt, hpf, hff, hne,
        hread, hgv, howner]
    rw [hout]
    exact ⟨rfl, rfl⟩

/-- C8 witness: a non-owner mp4 upload is answered 401 with no update by
the presigned video handler; a non-owner jpeg thumbnail reaching the
ownership check of the disk-backed handler is also answered 401 with no
update. -/
theorem C8_witness :
    ((handlerUploadVideoPresigned sampleCfg nonOwnerVideoEnv (okReq mp4Part)).status
        = 401 ∧
      (handlerUploadVideoPresigned sampleCfg nonOwnerVideoEnv (okReq mp4Part)).dbUpdates
        = []) ∧
    ((handlerUploadThumbnailDisk sampleCfg nonOwnerThumbEnv (okReq jpegPart)).status
        = 401 ∧
      (handlerUploadThumbnailDisk sampleCfg nonOwnerThumbEnv (okReq jpegPart)).dbUpdates
        = []) := by
  constructor
  · exact C8_owner_mismatch_status.1 sampleCfg nonOwnerVideoEnv (okReq mp4Part)
      "v1" "tok" bobVideo rfl rfl rfl rfl (by decide)
  · exact C8_owner_mismatch_status.2.2.2.1 sampleCfg nonOwnerThumbEnv
      (okReq jpegPart) "v1" "tok" jpegPart "image/jpeg" bobVideo rfl rfl rfl
      rfl rfl (by decide) (Or.inl rfl) rfl rfl rfl (by decide)

/-- C10: in the disk-backed thumbnail variant the asset file is created and
the uploaded bytes written to the derived disk path before the record is
loaded and before ownership is checked, so a request rejected at lookup
(500) or at the ownership check (401) still leaves the written thumbnail
file on disk while no record update occurs. -/
theorem C10_disk_write_precedes_authz
    (cfg : ApiCfg) (env : ThumbEnv) (r : UploadRequest) (vid tok : String)
    (part : FilePart) (t : String)
    (hvid : r.videoID = some vid) (hbt : r.bearerToken = some tok)
    (hjwt : r.jwtValid = true) (hpf : r.parseFormOk = true)
    (hff : r.formFile = some part)
    (hparse : parseMediaType part.contentType = some t)
    (hallow : t = "image/jpeg" ∨ t = "image/png")
    (hcr : env.createOk = true) (hcp : env.copyOk = true)
    (hrej : env.getVideo vid = none ∨
      ∃ video, env.getVideo vid = some video ∧ video.userID ≠ r.userID) :
    (handlerUploadThumbnailDisk cfg env r).filesWritten =
      [(getAssetDiskPath cfg (getAssetPath vid part.contentType),
        part.bytes)] ∧
    (handlerUploadThumbnailDisk cfg env r).dbUpdates = [] ∧
    ((handlerUploadThumbnailDisk cfg env r).status = 500 ∨
      (handlerUploadThumbnailDisk cfg env r).status = 401) := by
  have hne : part.contentType ≠ "" := by
    intro e
    rw [e] at hparse
    exact Option.noConfusion hparse
  have hcond : ¬(t ≠ "image/jpeg" ∧ t ≠ "image/png") := by
    rcases hallow with rfl | rfl <;> simp
  rcases hrej with hgv | ⟨video, hgv, howner⟩
  · have hout : handlerUploadThumbnailDisk cfg env r = errThumb 500
        [(getAssetDiskPath cfg (getAssetPath vid part.contentType),
          part.bytes)] := by
      simp [handlerUploadThumbnailDisk, hvid, hbt, hjwt, hpf, hff, hne,
        hparse, hcond, hcr, hcp, hgv]
    rw [hout]
    exact ⟨rfl, rfl, Or.inl rfl⟩
  · have hout : handlerUploadThumbnailDisk cfg env r = errThumb 401
        [(getAssetDiskPath cfg (getAssetPath vid part.contentType),
          part.bytes)] := by
      simp [handlerUploadThumbnailDisk, hvid, hbt, hjwt, hpf, hff, hne,
        hparse, hcond, hcr, hcp, hgv, howner]
    rw [hout]
    exact ⟨rfl, rfl, Or.inr rfl⟩

/-- C10 witness: a non-owner jpeg thumbnail upload is rejected with 401,
yet the thumbnail file with the uploaded bytes is on disk and the store
was not updated. -/
theorem C10_witness :
    (handlerUploadThumbnailDisk sampleCfg nonOwnerThumbEnv (okReq jpegPart)).filesWritten
      = [(getAssetDiskPath sampleCfg (getAssetPath "v1" "image/jpeg"),
          "JPEGDATA")] ∧
    (handlerUploadThumbnailDisk sampleCfg nonOwnerThumbEnv (okReq jpegPart)).dbUpdates
      = [] ∧
    ((handlerUploadThumbnailDisk sampleCfg nonOwnerThumbEnv (okReq jpegPart)).status
        = 500 ∨
      (handlerUploadThumbnailDisk sampleCfg nonOwnerThumbEnv (okReq jpegPart)).status
        = 401) := by
  exact C10_disk_write_precedes_authz sampleCfg nonOwnerThumbEnv
    (okReq jpegPart) "v1" "tok" jpegPart "image/jpeg" rfl rfl rfl rfl rfl
    (by decide) (Or.inl rfl) rfl rfl
    (Or.inr ⟨bobVideo, rfl, by decide⟩)

/-- C3 counterexample: in the direct-URL video variant a 1920x1080 upload
produces the object key `landscape/deadbeef.mp4` — the orientation prefix
ends in a slash, not the claimed `landscape-`. -/
theorem C3_counterexample :
    okVideoEnv.ffprobe = FfprobeResult.streams [(1920, 1080)] ∧
    (handlerUploadVideoDirect sampleCfg okVideoEnv (okReq mp4Part)).s3Puts =
      [("tubely", "landscape/deadbeef.mp4")] ∧
    List.isPrefixOf "landscape-".data "landscape/deadbeef.mp4".data
      = false := by
  refine ⟨rfl, by decide, by decide⟩

/-- C3 (amended): for nonzero probed dimensions the ratio string is
`width:height`, and classification is by strict comparison — in the
presigned variant the prefixes are `landscape-`/`portrait-`/`other-` as
claimed, while in the direct-URL variant they end in `/` instead
(`landscape/`/`portrait/`/`other/`); a zero width or height makes the
probe step fail and the presigned handler answer 500 with no update. -/
theorem C3_orientation_classification :
    (∀ w h : Int, w ≠ 0 → h ≠ 0 →
      getVideoAspectRatio (FfprobeResult.streams [(w, h)]) =
        Except.ok (intToString w ++ ":" ++ intToString h) ∧
      orientationPfxDash (intToString w ++ ":" ++ intToString h) =
        (if w > h then "landscape-" else if h > w then "portrait-"
          else "other-") ∧
      orientationPfxSlash (intToString w ++ ":" ++ intToString h) =
        (if w > h then "landscape/" else if h > w then "portrait/"
          else "other/")) ∧
    (∀ (cfg : ApiCfg) (env : VideoEnv) (r : UploadRequest) (vid tok : String)
      (video : Video) (part : FilePart) (w h : Int)
      (rest : List (Int × Int)),
      r.videoID = some vid → r.bearerToken = some tok → r.jwtValid = true →
      env.getVideo vid = some video → video.userID = r.userID →
      r.parseFormOk = true → r.formFile = some part →
      parseMediaType part.contentType = some "video/mp4" →
      env.createTempOk = true → env.copyOk = true → env.seekOk = true →
      env.ffprobe = FfprobeResult.streams ((w, h) :: rest) →
      (w = 0 ∨ h = 0) →
      (handlerUploadVideoPresigned cfg env r).status = 500 ∧
      (handlerUploadVideoPresigned cfg env r).dbUpdates = []) ∧
    (∀ (cfg : ApiCfg) (env : VideoEnv) (r : UploadRequest) (vid tok : String)
      (video : Video) (part : FilePart) (w h : Int)
      (rest : List (Int × Int)),
      r.videoID = some vid → r.bearerToken = some tok → r.jwtValid = true →
      env.getVideo vid = some video → video.userID = r.userID →
      r.parseFormOk = true → r.formFile = some part →
      parseMediaType part.contentType = some "video/mp4" →
      env.createTempOk = true → env.copyOk = true → env.seekOk = true →
      env.ffprobe = FfprobeResult.streams ((w, h) :: rest) →
      (w = 0 ∨ h = 0) →
      (handlerUploadVideoDirect cfg env r).status = 500 ∧
      (handlerUploadVideoDirect cfg env r).dbUpdates = []) := by
  refine ⟨?_, ?_, ?_⟩
  · intro w h hw hh
    have hsp : splitOnChar ':' (intToString w ++ ":" ++ intToString h) =
        [intToString w, intToString h] := by
      rw [colon_eq_mk]
      exact splitOnChar_append_pair ':' (intToString w) (intToString h)
        (@not_mem_intToString ':' (by decide) (by decide) w)
        (@not_mem_intToString ':' (by decide) (by decide) h)
    refine ⟨?_, ?_, ?_⟩
    · simp [getVideoAspectRatio, hw, hh]
    · simp [orientationPfxDash, hsp, atoi_intToString]
    · simp [orientationPfxSlash, hsp, atoi_intToString]
  · intro cfg env r vid tok video part w h rest hvid hbt hjwt hgv howner hpf
      hff hparse hcr hcp hsk hprobe hzero
    have hne : part.contentType ≠ "" := by
      intro e
      rw [e] at hparse
      exact Option.noConfusion hparse
    have hratio : getVideoAspectRatio env.ffprobe = Except.error
        "width or height is zero, cannot determine aspect ratio" := by
      rw [hprobe]
      simp [getVideoAspectRatio, hzero]
    have hout : handlerUploadVideoPresigned cfg env r =
        errVideo 500 [] [] [] := by
      simp [handlerUploadVideoPresigned, hvid, hbt, hjwt, hgv, howner, hpf,
        hff, hne, hparse, hcr, hcp, hsk, hratio]
    rw [hout]
    exact ⟨rfl, rfl⟩
  · intro cfg env r vid tok video part w h rest hvid hbt hjwt hgv howner hpf
      hff hparse hcr hcp hsk hprobe hzero
    have hne : part.contentType ≠ "" := by
      intro e
      rw [e] at hparse
      exact Option.noConfusion hparse
    have hratio : getVideoAspectRatio env.ffprobe = Except.error
        "width or height is zero, cannot determine aspect ratio" := by
      rw [hprobe]
      simp [getVideoAspectRatio, hzero]
    have hout : handlerUploadVideoDirect cfg env r =
        errVideo 500 [] [] [] := by
      simp [handlerUploadVideoDirect, hvid, hbt, hjwt, hgv, howner, hpf,
        hff, hne, hparse, hcr, hcp, hsk, hratio]
    rw [hout]
    exact ⟨rfl, rfl⟩

/-- C3 witness: a 16x9 probe classifies as landscape in both variants, and
a zero-height probe makes both orientation-aware handlers fail with 500
and no update. -/
theorem C3_witness :
    (getVideoAspectRatio (FfprobeResult.streams [((16 : Int), (9 : Int))]) =
        Except.ok (intToString 16 ++ ":" ++ intToString 9) ∧
      orientationPfxDash (intToString 16 ++ ":" ++ intToString 9) =
        (if (16 : Int) > (9 : Int) then "landscape-"
          else if (9 : Int) > (16 : Int) then "portrait-" else "other-") ∧
      orientationPfxSlash (intToString 16 ++ ":" ++ intToString 9) =
        (if (16 : Int) > (9 : Int) then "landscape/"
          else if (9 : Int) > (16 : Int) then "portrait/" else "other/")) ∧
    ((handlerUploadVideoPresigned sampleCfg zeroProbeEnv (okReq mp4Part)).status
        = 500 ∧
      (handlerUploadVideoPresigned sampleCfg zeroProbeEnv (okReq mp4Part)).dbUpdates
        = []) ∧
    ((handlerUploadVideoDirect sampleCfg zeroProbeEnv (okReq mp4Part)).status
        = 500 ∧
      (handlerUploadVideoDirect sampleCfg zeroProbeEnv (okReq mp4Part)).dbUpdates
        = []) := by
  refine ⟨?_, ?_, ?_⟩
  · exact C3_orientation_classification.1 16 9 (by decide) (by decide)
  · exact C3_orientation_classification.2.1 sampleCfg zeroProbeEnv
      (okReq mp4Part) "v1" "tok" sampleVideo mp4Part 1920 0 [] rfl rfl rfl
      rfl rfl rfl rfl (by decide) rfl rfl rfl rfl (Or.inr rfl)
  · exact C3_orientation_classification.2.2 sampleCfg zeroProbeEnv
      (okReq mp4Part) "v1" "tok" sampleVideo mp4Part 1920 0 [] rfl rfl rfl
      rfl rfl rfl rfl (by decide) rfl rfl rfl rfl (Or.inr rfl)

/-- C6 counterexample: when ffmpeg fails after writing its output, the
`.processing` sibling of the staging file is still on disk after the
handler returns (with status 500). -/
theorem C6_counterexample :
    ffmpegFailEnv.ffmpeg.exitOk = false ∧
    (handlerUploadVideoPresigned sampleCfg ffmpegFailEnv (okReq mp4Part)).status
      = 500 ∧
    (handlerUploadVideoPresigned sampleCfg ffmpegFailEnv (okReq mp4Part)).tempFilesAfter
      = ["/tmp/tubely-upload-42.mp4.processing"] := by
  refine ⟨rfl, by decide, by decide⟩

/-- C6 (amended): the staging temp file itself never survives the presigned
video handler on any path; the only file that can survive is the
`.processing` sibling, and only when the remux tool itself failed after
having written it — on every other path, success included, nothing is left
behind. -/
theorem C6_temp_file_cleanup :
    (∀ (cfg : ApiCfg) (env : VideoEnv) (r : UploadRequest),
      env.tempName ∉ (handlerUploadVideoPresigned cfg env r).tempFilesAfter) ∧
    (∀ (cfg : ApiCfg) (env : VideoEnv) (r : UploadRequest) (p : String),
      p ∈ (handlerUploadVideoPresigned cfg env r).tempFilesAfter →
      p = env.tempName ++ ".processing" ∧ env.ffmpeg.exitOk = false ∧
        env.ffmpeg.wroteOutput = true) := by
  constructor
  · intro cfg env r hmem
    rcases presigned_tempFilesAfter_cases cfg env r with hemp | ⟨heq, _herr⟩
    · rw [hemp] at hmem
      exact absurd hmem (List.not_mem_nil _)
    · rw [heq] at hmem
      exact self_ne_append_processing env.tempName
        (processVideoForFastStart_mem_snd env.ffmpeg env.tempName
          env.tempName hmem)
  · intro cfg env r p hmem
    rcases presigned_tempFilesAfter_cases cfg env r with hemp | ⟨heq, herr⟩
    · rw [hemp] at hmem
      exact absurd hmem (List.not_mem_nil _)
    · rw [heq] at hmem
      exact processVideoForFastStart_error_mem env.ffmpeg env.tempName p
        herr hmem

/-- C6 witness: on the all-success path nothing is left behind, and the
file left behind by the failing-ffmpeg run is exactly the `.processing`
sibling of the staging file. -/
theorem C6_witness :
    ("/tmp/tubely-upload-42.mp4" ∉
      (handlerUploadVideoPresigned sampleCfg okVideoEnv (okReq mp4Part)).tempFilesAfter) ∧
    ("/tmp/tubely-upload-42.mp4.processing" ∈
        (handlerUploadVideoPresigned sampleCfg ffmpegFailEnv (okReq mp4Part)).tempFilesAfter →
      "/tmp/tubely-upload-42.mp4.processing" =
          "/tmp/tubely-upload-42.mp4" ++ ".processing" ∧
        ffmpegFailEnv.ffmpeg.exitOk = false ∧
        ffmpegFailEnv.ffmpeg.wroteOutput = true) := by
  constructor
  · exact C6_temp_file_cleanup.1 sampleCfg okVideoEnv (okReq mp4Part)
  · exact C6_temp_file_cleanup.2 sampleCfg ffmpegFailEnv (okReq mp4Part)
      "/tmp/tubely-upload-42.mp4.processing"

/-- C7: every 200 response of the presigned video handler persisted exactly
the `bucket,key` composite — never the signed URL — and the response body
carries the record holding the presigner's output for the stored composite
at the 1-hour expiry. -/
theorem C7_success_persists_composite (cfg : ApiCfg) (env : VideoEnv)
    (r : UploadRequest)
    (h200 : (handlerUploadVideoPresigned cfg env r).status = 200) :
    ∃ (video : Video) (key url : String),
      (handlerUploadVideoPresigned cfg env r).dbUpdates =
        [{ video with videoURL := some (cfg.s3Bucket ++ "," ++ key) }] ∧
      (handlerUploadVideoPresigned cfg env r).s3Puts =
        [(cfg.s3Bucket, key)] ∧
      (handlerUploadVideoPresigned cfg env r).okBody =
        some { video with videoURL := some url } ∧
      ∃ b k, splitOnChar ',' (cfg.s3Bucket ++ "," ++ key) = [b, k] ∧
        env.presign b k timeHour = Except.ok url := by
  rcases hvid : r.videoID with _ | vid
  · simp [handlerUploadVideoPresigned, hvid, errVideo] at h200
  rcases hbt : r.bearerToken with _ | tok
  · simp [handlerUploadVideoPresigned, hvid, hbt, errVideo] at h200
  cases hjwt : r.jwtValid
  · simp [handlerUploadVideoPresigned, hvid, hbt, hjwt, errVideo] at h200
  rcases hgv : env.getVideo vid with _ | video
  · simp [handlerUploadVideoPresigned, hvid, hbt, hjwt, hgv, errVideo]
      at h200
  rcases eq_or_ne video.userID r.userID with howner | howner
  swap
  · simp [handlerUploadVideoPresigned, hvid, hbt, hjwt, hgv, howner,
      errVideo] at h200
  cases hpf : r.parseFormOk
  · simp [handlerUploadVideoPresigned, hvid, hbt, hjwt, hgv, howner, hpf,
      errVideo] at h200
  rcases hff : r.formFile with _ | part
  · simp [handlerUploadVideoPresigned, hvid, hbt, hjwt, hgv, howner, hpf,
      hff, errVideo] at h200
  rcases eq_or_ne part.contentType "" with hct | hct
  · simp [handlerUploadVideoPresigned, hvid, hbt, hjwt, hgv, howner, hpf,
      hff, hct, errVideo] at h200
  rcases hpm : parseMediaType part.contentType with _ | mt
  · simp [handlerUploadVideoPresigned, hvid, hbt, hjwt, hgv, howner, hpf,
      hff, hct, hpm, errVideo] at h200
  rcases eq_or_ne mt "video/mp4" with hmt | hmt
  swap
  · simp [handlerUploadVideoPresigned, hvid, hbt, hjwt, hgv, howner, hpf,
      hff, hct, hpm, hmt, errVideo] at h200
  cases hcr : env.createTempOk
  · simp [handlerUploadVideoPresigned, hvid, hbt, hjwt, hgv, howner, hpf,
      hff, hct, hpm, hmt, hcr, errVideo] at h200
  cases hcp : env.copyOk
  · simp [handlerUploadVideoPresigned, hvid, hbt, hjwt, hgv, howner, hpf,
      hff, hct, hpm, hmt, hcr, hcp, errVideo] at h200
  cases hsk : env.seekOk
  · simp [handlerUploadVideoPresigned, hvid, hbt, hjwt, hgv, howner, hpf,
      hff, hct, hpm, hmt, hcr, hcp, hsk, errVideo] at h200
  rcases hratio : getVideoAspectRatio env.ffprobe with e | ratio
  · simp [handlerUploadVideoPresigned, hvid, hbt, hjwt, hgv, howner, hpf,
      hff, hct, hpm, hmt, hcr, hcp, hsk, hratio, errVideo] at h200
  rcases hproc : (processVideoForFastStart env.ffmpeg env.tempName).1
    with e | pp
  · simp [handlerUploadVideoPresigned, hvid, hbt, hjwt, hgv, howner, hpf,
      hff, hct, hpm, hmt, hcr, hcp, hsk, hratio, hproc, errVideo] at h200
  cases hopen : env.openProcessedOk
  · simp [handlerUploadVideoPresigned, hvid, hbt, hjwt, hgv, howner, hpf,
      hff, hct, hpm, hmt, hcr, hcp, hsk, hratio, hproc, hopen, errVideo]
      at h200
  cases hput : env.s3PutOk
  · simp [handlerUploadVideoPresigned, hvid, hbt, hjwt, hgv, howner, hpf,
      hff, hct, hpm, hmt, hcr, hcp, hsk, hratio, hproc, hopen, hput,
      errVideo] at h200
  cases hupd : env.updateOk
  · simp [handlerUploadVideoPresigned, hvid, hbt, hjwt, hgv, howner, hpf,
      hff, hct, hpm, hmt, hcr, hcp, hsk, hratio, hproc, hopen, hput, hupd,
      errVideo] at h200
  rcases hsign :
      dbVideoToSignedVideo env.presign
        { id := video.id, userID := r.userID,
          thumbnailURL := video.thumbnailURL,
          videoURL := some (cfg.s3Bucket ++ "," ++
            (orientationPfxDash ratio ++ env.newHex ++
              filepathExt part.filename)) }
    with e | signed
  · simp [handlerUploadVideoPresigned, hvid, hbt, hjwt, hgv, howner, hpf,
      hff, hct, hpm, hmt, hcr, hcp, hsk, hratio, hproc, hopen, hput, hupd,
      hsign, errVideo] at h200
  have hout : handlerUploadVideoPresigned cfg env r =
      { status := 200, okBody := some signed,
        dbUpdates := [
          { id := video.id, userID := r.userID,
            thumbnailURL := video.thumbnailURL,
            videoURL := some (cfg.s3Bucket ++ "," ++
              (orientationPfxDash ratio ++ env.newHex ++
                filepathExt part.filename)) }],
        s3Puts := [(cfg.s3Bucket, orientationPfxDash ratio ++ env.newHex ++
          filepathExt part.filename)],
        tempFilesAfter := [] } := by
    simp [handlerUploadVideoPresigned, hvid, hbt, hjwt, hgv, howner, hpf,
      hff, hct, hpm, hmt, hcr, hcp, hsk, hratio, hproc, hopen, hput, hupd,
      hsign]
  obtain ⟨b, k, url, hbk, hpres, hsigned⟩ :=
    dbVideoToSignedVideo_ok_inv env.presign
      { id := video.id, userID := r.userID,
        thumbnailURL := video.thumbnailURL,
        videoURL := some (cfg.s3Bucket ++ "," ++
          (orientationPfxDash ratio ++ env.newHex ++
            filepathExt part.filename)) }
      signed
      (cfg.s3Bucket ++ "," ++ (orientationPfxDash ratio ++ env.newHex ++
        filepathExt part.filename))
      rfl (append_comma_ne_empty _ _) hsign
  refine ⟨{ video with userID := r.userID },
    orientationPfxDash ratio ++ env.newHex ++ filepathExt part.filename,
    url, ?_, ?_, ?_, b, k, hbk, hpres⟩
  · rw [hout]
  · rw [hout]
  · rw [hout, hsigned]

/-- C7 witness: a fully successful presigned upload persists the composite
and responds with the presigner's 1-hour URL for it. -/
theorem C7_witness :
    ∃ (video : Video) (key url : String),
      (handlerUploadVideoPresigned sampleCfg okVideoEnv (okReq mp4Part)).dbUpdates
        = [{ video with
            videoURL := some (sampleCfg.s3Bucket ++ "," ++ key) }] ∧
      (handlerUploadVideoPresigned sampleCfg okVideoEnv (okReq mp4Part)).s3Puts
        = [(sampleCfg.s3Bucket, key)] ∧
      (handlerUploadVideoPresigned sampleCfg okVideoEnv (okReq mp4Part)).okBody
        = some { video with videoURL := some url } ∧
      ∃ b k, splitOnChar ',' (sampleCfg.s3Bucket ++ "," ++ key) = [b, k] ∧
        okVideoEnv.presign b k timeHour = Except.ok url :=
  C7_success_persists_composite sampleCfg okVideoEnv (okReq mp4Part)
    (by decide)

end Tubely
